import Mathlib

/-!
# Verification of the orbit-gateway admission-control core

A shallow embedding, in Lean 4, of the policy-driven AI gateway
(`src/main.py` and the `gateway` package): the Redis-backed fixed-window
rate limiter and monthly quota counter (`gateway/store.py`), bearer-token
authentication (`gateway/auth.py`), policy and route lookup
(`gateway/policy.py`), PII redaction (`gateway/middleware.py`), and the
dispatch logic of `main.py` (AI-route admission ordering, proxy target-URL
construction, method Allow-list handling, and admin policy updates).

External effects (Redis, the filesystem, the HTTP client, the regex
engine) are modelled explicitly: Redis keys become explicit state values
threaded through the functions, fallible I/O becomes boolean/`Except`
parameters and results, and the regex engine is modelled on the fragment
of patterns the theorems use.
-/

namespace OrbitGateway

/- ## `gateway/store.py` -/

/-- State of one fixed-window rate-limit counter key `rl:{tenant}:{window}`
in Redis: its integer value (`0` = key absent, since `INCR` of an absent
key yields `1`) and its remaining TTL in seconds (Redis reports `-2` for
an absent key, `-1` for a key with no expiry). -/
structure RateState where
  count : Nat
  ttl : Int
  deriving Repr, DecidableEq

/-- The counter key state before any request of the window: key absent. -/
def RateState.initial : RateState := ⟨0, -2⟩

/-- Model of `gateway/store.py::rate_allow`: `INCR` the window counter, set its
expiry to `per_seconds` if this was the first increment, then compare the
post-increment value with `requests`.  On denial the retry hint is the
counter's TTL when it is a positive number, else `per_seconds`
(`retry = ttl if ttl and ttl > 0 else per_seconds`).  Returns
`((allowed, retry_after), new key state)`. -/
def rate_allow (requests per_seconds : Int) (st : RateState) :
    (Bool × Int) × RateState :=
  let val : Nat := st.count + 1
  let st' : RateState :=
    if val = 1 then { count := val, ttl := per_seconds } else { st with count := val }
  if (val : Int) > requests then
    let retry := if st'.ttl > 0 then st'.ttl else per_seconds
    ((false, retry), st')
  else
    ((true, 0), st')

/-- Wall-clock time passing between two rate-limit checks inside one
window: the counter value is untouched and the TTL only decreases. -/
def RateState.elapse (d : Nat) (st : RateState) : RateState :=
  { st with ttl := st.ttl - d }

/-- The key state after `k` rate-limit checks in one window, with
`decay j` seconds elapsing after the `j`-th check (an arbitrary
schedule). -/
def rateRun (requests per_seconds : Int) (decay : Nat → Nat) : Nat → RateState
  | 0 => RateState.initial
  | k + 1 =>
      RateState.elapse (decay k) (rate_allow requests per_seconds
        (rateRun requests per_seconds decay k)).2

/-- Model of `gateway/store.py::quota_consume`, the Lua transaction run by
`redis.eval`: read the current monthly counter (`0` when the key is
absent); if `curr + tokens > cap` abort returning `-1` (Python then
returns `False`) without touching the key; otherwise `INCRBY tokens`
and return the new value (Python returns `True`).  The counter key is
modelled as `Option Int` (`none` = absent). -/
def quota_consume (tokens cap : Int) (counter : Option Int) :
    Bool × Option Int :=
  let curr := counter.getD 0
  if curr + tokens > cap then (false, counter)
  else (true, some (curr + tokens))

/-- Value of the quota counter key (absent reads as `0`). -/
def quotaVal (counter : Option Int) : Int := counter.getD 0

/-- The quota counter key after a sequence of `quota_consume` calls with
the given token requests, starting from an absent key. -/
def quotaRun (cap : Int) (reqs : List Int) : Option Int :=
  reqs.foldl (fun c t => (quota_consume t cap c).2) none

lemma quota_consume_le_cap {cap t : Int} {c : Option Int}
    (h : quotaVal c ≤ cap) : quotaVal (quota_consume t cap c).2 ≤ cap := by
  unfold quota_consume quotaVal at *
  by_cases hgt : c.getD 0 + t > cap
  · simp [hgt, h]
  · simp [hgt]
    omega

lemma quotaRun_le_cap_aux (cap : Int) (reqs : List Int) :
    ∀ c : Option Int, quotaVal c ≤ cap →
      quotaVal (reqs.foldl (fun c t => (quota_consume t cap c).2) c) ≤ cap := by
  induction reqs with
  | nil => intro c h; simpa using h
  | cons t rest ih =>
      intro c h
      simpa using ih _ (quota_consume_le_cap h)

/-- C1: Within one calendar month the quota counter never exceeds the cap
`monthly_tokens`: starting from an absent key, any sequence of
`quota_consume` calls leaves the counter at most `cap`; moreover a single
call that would overshoot returns failure and leaves the key untouched,
and a call that fits returns success and increments the key by exactly
the requested amount. -/
theorem quota_cap_invariant (cap : Int) (hcap : 0 ≤ cap) (reqs : List Int) :
    quotaVal (quotaRun cap reqs) ≤ cap ∧
    (∀ (tokens : Int) (counter : Option Int),
      (quotaVal counter + tokens > cap →
        quota_consume tokens cap counter = (false, counter)) ∧
      (quotaVal counter + tokens ≤ cap →
        quota_consume tokens cap counter =
          (true, some (quotaVal counter + tokens)))) := by
  refine ⟨?_, ?_⟩
  · exact quotaRun_le_cap_aux cap reqs none (by simpa [quotaVal] using hcap)
  · intro tokens counter
    constructor
    · intro hgt
      unfold quota_consume
      simp only [quotaVal] at hgt
      simp [hgt]
    · intro hle
      unfold quota_consume
      simp only [quotaVal] at hle
      have : ¬ (counter.getD 0 + tokens > cap) := by omega
      simp [this, quotaVal]

lemma rateRun_count (requests per_seconds : Int) (decay : Nat → Nat) (k : Nat) :
    (rateRun requests per_seconds decay k).count = k := by
  induction k with
  | zero => rfl
  | succ k ih =>
      simp only [rateRun, RateState.elapse, rate_allow]
      split
      · split
        all_goals simp_all
      · split
        all_goals simp_all

lemma rateRun_ttl_le (requests per_seconds : Int) (hW : 1 ≤ per_seconds)
    (decay : Nat → Nat) (k : Nat) :
    (rateRun requests per_seconds decay k).ttl ≤ per_seconds := by
  induction k with
  | zero => simp only [rateRun, RateState.initial]; omega
  | succ k ih =>
      simp only [rateRun, RateState.elapse, rate_allow]
      split
      · split
        all_goals simp_all
        all_goals omega
      · split
        all_goals simp_all
        all_goals omega

lemma rate_allow_allowed (requests per_seconds : Int) (st : RateState)
    (h : ¬ (((st.count + 1 : Nat) : Int) > requests)) :
    (rate_allow requests per_seconds st).1 = (true, 0) := by
  unfold rate_allow
  dsimp only
  rw [if_neg h]

lemma rate_allow_denied (requests per_seconds : Int) (st : RateState)
    (h : (((st.count + 1 : Nat) : Int) > requests)) :
    (rate_allow requests per_seconds st).1 =
      (false,
        if (if st.count + 1 = 1 then per_seconds else st.ttl) > 0
        then (if st.count + 1 = 1 then per_seconds else st.ttl)
        else per_seconds) := by
  unfold rate_allow
  dsimp only
  rw [if_pos h]
  by_cases h1 : st.count + 1 = 1 <;> simp [h1]

/-- C2: Within one fixed window of a tenant configured with
`requests = N, per_seconds = W` (`W ≥ 1`), the first `N` checks are
allowed with `retry_after = 0`, and every later check is denied with
`0 < retry_after ≤ W` (the counter's remaining TTL, or `W` when the TTL
is not a positive number).  `k` counts the checks already made in the
window, under an arbitrary schedule `decay` of seconds elapsing between
checks. -/
theorem rate_window_enforcement (N W : Int) (hW : 1 ≤ W) (decay : Nat → Nat)
    (k : Nat) :
    ((k : Int) < N →
      (rate_allow N W (rateRun N W decay k)).1 = (true, 0)) ∧
    (N ≤ (k : Int) →
      (rate_allow N W (rateRun N W decay k)).1.1 = false ∧
      0 < (rate_allow N W (rateRun N W decay k)).1.2 ∧
      (rate_allow N W (rateRun N W decay k)).1.2 ≤ W) := by
  have hcount := rateRun_count N W decay k
  have httl := rateRun_ttl_le N W hW decay k
  constructor
  · intro hk
    refine rate_allow_allowed N W _ ?_
    push_cast [hcount]
    omega
  · intro hk
    have hgt : ((((rateRun N W decay k).count + 1 : Nat) : Int) > N) := by
      push_cast [hcount]; omega
    rw [rate_allow_denied N W _ hgt]
    set t : Int :=
      if (rateRun N W decay k).count + 1 = 1 then W else (rateRun N W decay k).ttl
      with ht
    have htle : t ≤ W := by
      rw [ht]; split
      · exact le_refl W
      · exact httl
    by_cases hpos : t > 0
    · rw [if_pos hpos]
      exact ⟨rfl, hpos, htle⟩
    · rw [if_neg hpos]
      exact ⟨rfl, by omega, le_refl W⟩

/-- Witness for C2 at `N = 2, W = 60`, one second elapsing between checks:
the third check of the window (`k = 2`) is denied with
`0 < retry_after ≤ 60`, while the first is allowed with `retry_after = 0`. -/
theorem rate_window_enforcement_witness :
    (1 : Int) ≤ 60 ∧
      (rate_allow 2 60 (rateRun 2 60 (fun _ => 1) 0)).1 = (true, 0) ∧
      ((rate_allow 2 60 (rateRun 2 60 (fun _ => 1) 2)).1.1 = false ∧
        0 < (rate_allow 2 60 (rateRun 2 60 (fun _ => 1) 2)).1.2 ∧
        (rate_allow 2 60 (rateRun 2 60 (fun _ => 1) 2)).1.2 ≤ 60) :=
  ⟨by norm_num,
   (rate_window_enforcement 2 60 (by norm_num) (fun _ => 1) 0).1 (by norm_num),
   (rate_window_enforcement 2 60 (by norm_num) (fun _ => 1) 2).2 (by norm_num)⟩

/-- Witness for C1 at `cap = 100`, requests `[60, 50, 40]`: the second
call is rejected (would reach 110), the third succeeds, and the counter
ends at `100 ≤ 100`. -/
theorem quota_cap_invariant_witness :
    (0 : Int) ≤ 100 ∧
      quotaVal (quotaRun 100 [60, 50, 40]) ≤ 100 ∧
      quota_consume 50 100 (some 60) = (false, some 60) := by
  refine ⟨by norm_num, (quota_cap_invariant 100 (by norm_num) [60, 50, 40]).1, ?_⟩
  exact ((quota_cap_invariant 100 (by norm_num) [60, 50, 40]).2 50 (some 60)).1
    (by norm_num [quotaVal])

/- ## `gateway/auth.py` and the authentication prefix of `main.py` handlers -/

/-- Helper for `pySplit`: scan the characters, accumulating the current
field in reverse; a whitespace character closes the current field (if
non-empty), so empty fields are never produced. -/
def pySplitAux : List Char → List Char → List String
  | [], acc => if acc = [] then [] else [String.mk acc.reverse]
  | c :: rest, acc =>
      if c.isWhitespace then
        (if acc = [] then [] else [String.mk acc.reverse]) ++ pySplitAux rest []
      else pySplitAux rest (c :: acc)

/-- Python `str.split()` with no argument: split on runs of whitespace,
discarding empty fields. -/
def pySplit (s : String) : List String :=
  pySplitAux s.data []

/-- Model of `gateway/auth.py::get_tenant_from_token`: reject a falsy (empty)
header, split it on whitespace, require exactly two fields, and look the
second field up in the token → tenant map (`PolicyStore.token_map()`),
here modelled as an association list.  The source never compares the
first field with the literal `"Bearer"`. -/
def get_tenant_from_token (authorization_header : String)
    (token_map : List (String × String)) : Option String :=
  if authorization_header = "" then none
  else
    let parts := pySplit authorization_header
    if parts.length ≠ 2 then none
    else token_map.lookup (parts.getD 1 "")

/-- Outcome of the authentication prefix of a `main.py` handler. -/
inductive AuthOutcome where
  | unauthenticated
  | forbidden
  | ok (tenant : String)
  deriving Repr, DecidableEq

/-- The authentication prefix shared by the `main.py` handlers
(`generate`, `proxy`, `route_forward`): a missing or empty Authorization
header raises 401 (`if not auth`), and a present header for which
`get_tenant_from_token` yields no tenant raises 403 (`invalid token`). -/
def resolveAuth (header : Option String)
    (token_map : List (String × String)) : AuthOutcome :=
  match header with
  | none => .unauthenticated
  | some h =>
      if h = "" then .unauthenticated
      else
        match get_tenant_from_token h token_map with
        | none => .forbidden
        | some t => .ok t

/-- C3 counterexample: the header `"Basic tok1"` is not of the form
`"Bearer <token>"`, yet the code authenticates it as tenant `"acme"`
(the first field is never compared with `"Bearer"`); and the malformed
single-field header `"Bearer"` yields 403 Forbidden, not 401
Unauthenticated. -/
theorem auth_bearer_shape_cex :
    resolveAuth (some "Basic tok1") [("tok1", "acme")] = .ok "acme" ∧
    resolveAuth (some "Bearer") [("tok1", "acme")] = .forbidden := by
  exact ⟨by decide, by decide⟩

/-- C3 amended: a missing or empty Authorization header yields 401
Unauthenticated; a present non-empty header that does not split into
exactly two whitespace-separated fields yields 403 Forbidden (not 401);
and a header with exactly two fields is resolved by its second field
alone — the first field is not required to be `"Bearer"` —
authenticating iff that field is a known token, else 403. -/
theorem auth_resolution (h : String) (m : List (String × String))
    (a b : String) :
    resolveAuth none m = .unauthenticated ∧
    resolveAuth (some "") m = .unauthenticated ∧
    (h ≠ "" → (pySplit h).length ≠ 2 → resolveAuth (some h) m = .forbidden) ∧
    (h ≠ "" → pySplit h = [a, b] →
      resolveAuth (some h) m =
        (match m.lookup b with
         | none => .forbidden
         | some t => .ok t)) := by
  refine ⟨rfl, rfl, ?_, ?_⟩
  · intro hne hlen
    simp only [resolveAuth, get_tenant_from_token, if_neg hne, if_pos hlen]
  · intro hne hsplit
    simp only [resolveAuth, get_tenant_from_token, if_neg hne, hsplit]
    norm_num

/-- Witness for C3 (amended) at header `"Bearer tok1"` with token map
`tok1 ↦ acme`: the header splits into two fields and authenticates. -/
theorem auth_resolution_witness :
    (("Bearer tok1" : String) ≠ "" ∧ pySplit "Bearer tok1" = ["Bearer", "tok1"]) ∧
      resolveAuth (some "Bearer tok1") [("tok1", "acme")] = .ok "acme" :=
  ⟨⟨by decide, by decide⟩,
   (auth_resolution "Bearer tok1" [("tok1", "acme")] "Bearer" "tok1").2.2.2
     (by decide) (by decide)⟩

/- ## `gateway/policy.py`: the policy document and route lookup -/

/-- A value of the policy document as produced by `yaml.safe_load`:
strings, integers, booleans, sequences, string-keyed mappings
(association lists, insertion order preserved), and null. -/
inductive Yaml where
  | str (s : String)
  | int (n : Int)
  | bool (b : Bool)
  | seq (items : List Yaml)
  | map (entries : List (String × Yaml))
  | null
  deriving Repr

/-- Python truthiness of a YAML value (`if not x` / `x or y`): empty
strings, zero, `False`, empty sequences, empty mappings and `None` are
falsy. -/
def Yaml.truthy : Yaml → Bool
  | .str s => s ≠ ""
  | .int n => n ≠ 0
  | .bool b => b
  | .seq items => !items.isEmpty
  | .map es => !es.isEmpty
  | .null => false

/-- Python `dict.get(k)` on a mapping value (the policy code only calls `.get`
on dicts; a non-mapping, which would raise in Python, yields `none`). -/
def Yaml.get (v : Yaml) (k : String) : Option Yaml :=
  match v with
  | .map es => es.lookup k
  | _ => none

/-- Whether a YAML value is a mapping (`isinstance(parsed, dict)`). -/
def Yaml.isMap : Yaml → Bool
  | .map _ => true
  | _ => false

/-- Model of `gateway/policy.py::PolicyStore.for_tenant`:
`raw.get("tenants", {}).get(tenant, {})`. -/
def for_tenant (raw : Yaml) (tenant : String) : Yaml :=
  (((raw.get "tenants").getD (.map [])).get tenant).getD (.map [])

/-- The effective routes mapping of a tenant:
`tenant_cfg.get("routes", {}) or {}` — an absent or falsy `routes` value
is replaced by the empty mapping. -/
def effectiveRoutes (raw : Yaml) (tenant : String) : Yaml :=
  let r := ((for_tenant raw tenant).get "routes").getD (.map [])
  if r.truthy then r else .map []

/-- Model of `gateway/policy.py::PolicyStore.route_for_tenant`:
`(tenant_cfg.get("routes", {}) or {}).get(route_name, {})`. -/
def route_for_tenant (raw : Yaml) (tenant route_name : String) : Yaml :=
  ((effectiveRoutes raw tenant).get route_name).getD (.map [])

/-- Model of the `main.py::route_forward` route-resolution check:
`if not route_cfg: raise HTTPException(404, "route not found")` —
`true` means the request is rejected with 404. -/
def routeLookup404 (raw : Yaml) (tenant route_name : String) : Bool :=
  !(route_for_tenant raw tenant route_name).truthy

/-- A policy document whose tenant `acme` has route `r` present but with
an empty configuration. -/
def emptyRouteDoc : Yaml :=
  .map [("tenants", .map [("acme", .map [("routes", .map [("r", .map [])])])])]

/-- C6 counterexample: tenant `acme` maps route `r` to an
empty-but-present RouteConfig, yet dispatch raises 404 — `main.py`
tests `if not route_cfg`, and the empty dict is falsy, so an
empty-but-present route is indistinguishable from an absent one. -/
theorem route_empty_notfound_cex :
    (effectiveRoutes emptyRouteDoc "acme").get "r" = some (.map []) ∧
    routeLookup404 emptyRouteDoc "acme" "r" = true := by
  exact ⟨rfl, rfl⟩

/-- C6 amended: an empty-but-present RouteConfig is dispatched exactly
like an absent one — both raise NotFound (404); a request escapes the
404 branch only when the tenant's routes mapping binds the name to a
truthy (non-empty) configuration. -/
theorem route_notfound_conflation (raw : Yaml) (tenant name : String)
    (cfg : Yaml) :
    ((effectiveRoutes raw tenant).get name = none →
      routeLookup404 raw tenant name = true) ∧
    ((effectiveRoutes raw tenant).get name = some (.map []) →
      routeLookup404 raw tenant name = true) ∧
    ((effectiveRoutes raw tenant).get name = some cfg → cfg.truthy = true →
      routeLookup404 raw tenant name = false) := by
  refine ⟨?_, ?_, ?_⟩
  · intro h
    simp [routeLookup404, route_for_tenant, h, Yaml.truthy]
  · intro h
    simp [routeLookup404, route_for_tenant, h, Yaml.truthy]
  · intro h htr
    simp [routeLookup404, route_for_tenant, h, htr]

/-- Witness for C6 (amended): in `emptyRouteDoc`, the present-but-empty
route `r` and the absent route `s` are both rejected with 404. -/
theorem route_notfound_conflation_witness :
    ((effectiveRoutes emptyRouteDoc "acme").get "r" = some (.map []) ∧
      routeLookup404 emptyRouteDoc "acme" "r" = true) ∧
    ((effectiveRoutes emptyRouteDoc "acme").get "s" = none ∧
      routeLookup404 emptyRouteDoc "acme" "s" = true) :=
  ⟨⟨rfl, (route_notfound_conflation emptyRouteDoc "acme" "r" .null).2.1 rfl⟩,
   ⟨rfl, (route_notfound_conflation emptyRouteDoc "acme" "s" .null).1 rfl⟩⟩

/- ## `main.py::route_forward` method allow-list (C10) -/

/-- The six verbs `main.py` registers for `/v1/route/...` and uses as
the default allow-list. -/
def supportedVerbs : List String :=
  ["GET", "POST", "PUT", "PATCH", "DELETE", "OPTIONS"]

/-- Model of `route_cfg.get("allow_methods") or [...]` in `main.py`: Python `or`
replaces a falsy left operand — absent key (`None`) or empty list —
with the default list of all six verbs. -/
def effective_allow_methods (v : Option (List String)) : List String :=
  match v with
  | none => supportedVerbs
  | some [] => supportedVerbs
  | some l => l

/-- Model of `if method not in allow_methods: raise HTTPException(405, ...)` —
`true` means the method passes the check. -/
def method_allowed (v : Option (List String)) (method : String) : Bool :=
  (effective_allow_methods v).contains method

/-- C10: an explicitly empty `allow_methods` list is treated exactly as
if `allow_methods` were unset: the effective allow-list is the same, all
six supported verbs pass the check, and the method check agrees with the
unset case on every method — so no route can reject every method via an
empty list. -/
theorem empty_allow_methods_is_unset :
    effective_allow_methods (some []) = effective_allow_methods none ∧
    supportedVerbs.all (fun m => method_allowed (some []) m) = true ∧
    (∀ m : String, method_allowed (some []) m = method_allowed none m) := by
  exact ⟨rfl, by decide, fun m => rfl⟩

/- ## `main.py::update_policies` (`POST /admin/policies`) (C4) -/

/-- Model of `main.py::update_policies` over the in-memory policy
document.  `bodyNonEmpty` is `bool(body)`; `parsed` is the outcome of
`yaml.safe_load(body)` (external parser: `.error` = raised exception);
`writeOk` is whether persisting to the policy file succeeds (external
filesystem).  An empty body, a parse failure, or a non-mapping payload
raise 400; a failed write raises 500; on full success the endpoint
reloads the just-written document, i.e. the parsed mapping becomes the
active document. -/
def update_policies (bodyNonEmpty : Bool) (parsed : Except String Yaml)
    (writeOk : Bool) : Except Nat Yaml :=
  if !bodyNonEmpty then .error 400
  else
    match parsed with
    | .error _ => .error 400
    | .ok v =>
        match v with
        | .map es => if writeOk then .ok (.map es) else .error 500
        | _ => .error 400

/-- The active in-memory policy document after an update request:
replaced only when the endpoint succeeded. -/
def policiesAfterUpdate (current : Yaml) (bodyNonEmpty : Bool)
    (parsed : Except String Yaml) (writeOk : Bool) : Yaml :=
  match update_policies bodyNonEmpty parsed writeOk with
  | .ok newDoc => newDoc
  | .error _ => current

/-- C4: every failing admin policy update — unparsable body (400),
non-mapping top-level value (400), failed persistence (500) — leaves the
previously active document in effect, so subsequent `for_tenant` lookups
return exactly what they returned before; and those three failure modes
do fail with the stated codes. -/
theorem admin_update_failure_atomic (current : Yaml) (b : Bool)
    (parsed : Except String Yaml) (w : Bool) :
    (∀ code : Nat, update_policies b parsed w = .error code →
      policiesAfterUpdate current b parsed w = current ∧
      ∀ tenant, for_tenant (policiesAfterUpdate current b parsed w) tenant =
        for_tenant current tenant) ∧
    (∀ msg : String, update_policies true (.error msg) w = .error 400) ∧
    (∀ v : Yaml, v.isMap = false → update_policies true (.ok v) w = .error 400) ∧
    (∀ es : List (String × Yaml),
      update_policies true (.ok (.map es)) false = .error 500) := by
  refine ⟨?_, ?_, ?_, ?_⟩
  · intro code hfail
    have hsame : policiesAfterUpdate current b parsed w = current := by
      unfold policiesAfterUpdate
      rw [hfail]
    exact ⟨hsame, fun tenant => by rw [hsame]⟩
  · intro msg
    rfl
  · intro v hv
    cases v <;> simp_all [update_policies, Yaml.isMap]
  · intro es
    rfl

/-- Witness for C4: a non-mapping payload (`"oops"`) is rejected with
400 and leaves `for_tenant` lookups on the active document unchanged. -/
theorem admin_update_failure_atomic_witness :
    update_policies true (.ok (.str "oops")) true = .error 400 ∧
      policiesAfterUpdate emptyRouteDoc true (.ok (.str "oops")) true =
        emptyRouteDoc ∧
      ∀ tenant,
        for_tenant (policiesAfterUpdate emptyRouteDoc true (.ok (.str "oops")) true)
          tenant = for_tenant emptyRouteDoc tenant :=
  ⟨rfl,
   ((admin_update_failure_atomic emptyRouteDoc true (.ok (.str "oops")) true).1
     400 rfl).1,
   ((admin_update_failure_atomic emptyRouteDoc true (.ok (.str "oops")) true).1
     400 rfl).2⟩

/- ## `gateway/middleware.py::redact_text` (C5, C8) -/

/-- The fixed replacement marker of `redact_text`. -/
def redactionMarker : String := "[REDACTED]"

/-- Case-insensitive character comparison (ASCII model of
`re.IGNORECASE`). -/
def charCI (a b : Char) : Bool := a.toLower == b.toLower

/-- Case-sensitive character comparison (Python `str.replace`). -/
def charCS (a b : Char) : Bool := a == b

/-- Whether `pat` is a prefix of `t` under the character comparison
`eq`. -/
def prefMatch (eq : Char → Char → Bool) : List Char → List Char → Bool
  | [], _ => true
  | _ :: _, [] => false
  | p :: ps, t :: ts => eq p t && prefMatch eq ps ts

/-- Whether `pat` occurs (under `eq`) as a contiguous run anywhere in the
text. -/
def occursIn (eq : Char → Char → Bool) (pat : List Char) : List Char → Bool
  | [] => prefMatch eq pat []
  | c :: rest => prefMatch eq pat (c :: rest) || occursIn eq pat rest

/-- Fuel-indexed left-to-right, non-overlapping replace-all of a
non-empty literal pattern: at each position, if the pattern matches
(under `eq`) emit the replacement and skip the matched run, else keep
the character.  This is the shared behaviour of Python
`re.sub(<literal pattern>, repl, text, flags=IGNORECASE)` (with `eq`
case-insensitive) and `str.replace` (with `eq` case-sensitive).  The
fuel is the text length, consumed one character per step. -/
def replAllF (eq : Char → Char → Bool) (pat repl : List Char) :
    Nat → List Char → List Char
  | 0, t => t
  | _, [] => []
  | fuel + 1, c :: rest =>
      if !pat.isEmpty && prefMatch eq pat (c :: rest) then
        repl ++ replAllF eq pat repl fuel (rest.drop (pat.length - 1))
      else c :: replAllF eq pat repl fuel rest

/-- Replace every (left-to-right, non-overlapping) occurrence of `pat`
in `t` under `eq` by `repl`. -/
def replAll (eq : Char → Char → Bool) (pat repl t : List Char) : List Char :=
  replAllF eq pat repl t.length t

/-- Classification of a pattern string by the Python regex engine,
modelled on the fragment the development uses: a non-empty pattern with
no regex metacharacter compiles and matches itself literally
(`litRe`); a pattern containing `(` but neither `)`, `\` nor `[` fails
to compile (unterminated subpattern, `badRe`); everything else is
outside the modelled fragment. -/
inductive PatKind where
  | litRe
  | badRe
  | unmodelled
  deriving Repr, DecidableEq

/-- The regex metacharacters of Python `re`, the two brace characters
(quantifiers) included. -/
def regexMeta : List Char :=
  ['.', '^', '$', '*', '+', '?', '(', ')', '[', ']', '\x7b', '\x7d', '|', '\\']

/-- Classify a pattern string; see `PatKind`. -/
def classifyPat (p : String) : PatKind :=
  if p ≠ "" && p.data.all (fun c => !regexMeta.contains c) then .litRe
  else if p.data.contains '(' && !p.data.contains ')' &&
      !p.data.contains '\\' && !p.data.contains '[' then .badRe
  else .unmodelled

/-- One iteration of the loop body of
`gateway/middleware.py::redact_text`:
`re.sub(p, "[REDACTED]", out, flags=re.IGNORECASE)` when the pattern
compiles (case-insensitive), falling back on `re.error` to
`out.replace(p, "[REDACTED]")` (case-sensitive).  Patterns outside the
modelled regex fragment leave the text unchanged; no theorem of this
development evaluates them. -/
def applyPattern (p text : String) : String :=
  match classifyPat p with
  | .litRe => String.mk (replAll charCI p.data redactionMarker.data text.data)
  | .badRe => String.mk (replAll charCS p.data redactionMarker.data text.data)
  | .unmodelled => text

/-- Model of `gateway/middleware.py::redact_text`: return the text
unchanged for a falsy (empty/absent) pattern list, else apply the
patterns in list order. -/
def redact_text (text : String) (patterns : List String) : String :=
  if patterns.isEmpty then text
  else patterns.foldl (fun out p => applyPattern p out) text

lemma replAllF_no_occurrence (eq : Char → Char → Bool) (pat repl : List Char) :
    ∀ (fuel : Nat) (t : List Char), occursIn eq pat t = false →
      replAllF eq pat repl fuel t = t := by
  intro fuel
  induction fuel with
  | zero =>
      intro t _
      cases t
      · rfl
      · rfl
  | succ fuel ih =>
      intro t hno
      cases t with
      | nil => rfl
      | cons c rest =>
          simp only [occursIn, Bool.or_eq_false_iff] at hno
          simp only [replAllF, hno.1, Bool.and_false, if_neg Bool.false_ne_true]
          rw [ih rest hno.2]

lemma replAll_no_occurrence (eq : Char → Char → Bool) (pat repl t : List Char)
    (hno : occursIn eq pat t = false) : replAll eq pat repl t = t :=
  replAllF_no_occurrence eq pat repl t.length t hno

lemma replAll_head_match (eq : Char → Char → Bool) (pat repl t : List Char)
    (hne : pat ≠ []) (hm : prefMatch eq pat t = true) :
    ∃ rest, replAll eq pat repl t = repl ++ rest := by
  cases t with
  | nil =>
      cases pat with
      | nil => exact absurd rfl hne
      | cons p ps => simp [prefMatch] at hm
  | cons c rest =>
      refine ⟨replAllF eq pat repl rest.length (rest.drop (pat.length - 1)), ?_⟩
      have hpe : pat.isEmpty = false := by
        cases pat with
        | nil => exact absurd rfl hne
        | cons p ps => rfl
      simp [replAll, replAllF, hpe, hm]

lemma redact_foldl_fixed (s : String) (P : List String)
    (h : ∀ p ∈ P, applyPattern p s = s) :
    P.foldl (fun out p => applyPattern p out) s = s := by
  induction P with
  | nil => rfl
  | cons q rest ih =>
      simp only [List.foldl_cons, h q (by simp)]
      exact ih (fun p hp => h p (by simp [hp]))

/-- C5 counterexample: redaction is not idempotent for every pattern
list — with the single (valid-regex) pattern `"RED"`, redacting `"RED"`
yields the marker `"[REDACTED]"`, and redacting again matches `"RED"`
inside the marker itself and yields `"[[REDACTED]ACTED]"`, a different
string. -/
theorem redact_not_idempotent_cex :
    redact_text "RED" ["RED"] = "[REDACTED]" ∧
    redact_text (redact_text "RED" ["RED"]) ["RED"] = "[[REDACTED]ACTED]" ∧
    (redact_text (redact_text "RED" ["RED"]) ["RED"] ==
      redact_text "RED" ["RED"]) = false := by
  exact ⟨by decide, by decide, by decide⟩

/-- C5 amended: the empty pattern list is the identity
(`redact_text text [] = text` for every text), and redaction is
idempotent for a pattern list `P` whenever no pattern of `P` changes the
once-redacted text (in particular whenever no pattern matches within the
redaction marker, the spec's stated policy convention) — but not for
arbitrary `P`. -/
theorem redact_identity_and_conditional_idempotence (text : String)
    (P : List String) :
    redact_text text [] = text ∧
    ((∀ p ∈ P, applyPattern p (redact_text text P) = redact_text text P) →
      redact_text (redact_text text P) P = redact_text text P) := by
  refine ⟨rfl, ?_⟩
  intro h
  cases P with
  | nil => rfl
  | cons q rest =>
      have hfix := redact_foldl_fixed (redact_text text (q :: rest)) (q :: rest) h
      simpa [redact_text] using hfix

/-- Witness for C5 (amended) at `text = "call sam"`, `P = ["sam"]`: the
marker does not match the pattern, so the no-change hypothesis holds and
double redaction equals single redaction. -/
theorem redact_conditional_idempotence_witness :
    (∀ p ∈ ["sam"], applyPattern p (redact_text "call sam" ["sam"]) =
      redact_text "call sam" ["sam"]) ∧
      redact_text (redact_text "call sam" ["sam"]) ["sam"] =
        redact_text "call sam" ["sam"] := by
  have h : ∀ p ∈ ["sam"], applyPattern p (redact_text "call sam" ["sam"]) =
      redact_text "call sam" ["sam"] := by decide
  exact ⟨h,
    (redact_identity_and_conditional_idempotence "call sam" ["sam"]).2 h⟩

/-- C8 counterexample: the pattern `"a("` does not compile as a regex,
so the code falls back to `str.replace`, which is case-SENSITIVE: the
text `"A("` — a case-insensitive occurrence — is left unchanged, while
the exact-case text `"a("` is replaced.  The claim that invalid patterns
are replaced case-insensitively is false. -/
theorem redact_invalid_pattern_case_cex :
    classifyPat "a(" = .badRe ∧
    redact_text "A(" ["a("] = "A(" ∧
    redact_text "a(" ["a("] = "[REDACTED]" := by
  exact ⟨by decide, by decide, by decide⟩

lemma classifyPat_litRe_ne_nil {p : String} (h : classifyPat p = .litRe) :
    p.data ≠ [] := by
  unfold classifyPat at h
  split at h
  · next hc =>
      simp only [Bool.and_eq_true, decide_eq_true_eq] at hc
      intro hnil
      exact hc.1 (by cases p; simp_all)
  · split at h <;> simp_all

lemma classifyPat_badRe_ne_nil {p : String} (h : classifyPat p = .badRe) :
    p.data ≠ [] := by
  unfold classifyPat at h
  split at h
  · simp_all
  · split at h
    · next hc =>
        simp only [Bool.and_eq_true] at hc
        intro hnil
        rw [hnil] at hc
        simp at hc
    · simp_all

/-- C8 amended: a pattern that compiles (modelled: non-empty,
metacharacter-free) is replaced by the marker case-insensitively — a
case-insensitive match at the head of the text is rewritten to the
marker, and a text with no case-insensitive occurrence is unchanged;
a pattern that does not compile is treated as a literal substring and
replaced case-SENSITIVELY — a text with no case-exact occurrence is
unchanged (even when a case-insensitive occurrence exists), and a
case-exact match at the head is rewritten to the marker. -/
theorem redact_pattern_case_behaviour (p text : String) :
    (classifyPat p = .litRe →
      (occursIn charCI p.data text.data = false →
        redact_text text [p] = text) ∧
      (prefMatch charCI p.data text.data = true →
        ∃ rest, (redact_text text [p]).data = redactionMarker.data ++ rest)) ∧
    (classifyPat p = .badRe →
      (occursIn charCS p.data text.data = false →
        redact_text text [p] = text) ∧
      (prefMatch charCS p.data text.data = true →
        ∃ rest, (redact_text text [p]).data = redactionMarker.data ++ rest)) := by
  constructor
  · intro hcls
    constructor
    · intro hno
      simp only [redact_text, List.isEmpty_cons, if_neg Bool.false_ne_true,
        List.foldl_cons, List.foldl_nil, applyPattern, hcls]
      rw [replAll_no_occurrence charCI p.data redactionMarker.data text.data hno]
    · intro hm
      obtain ⟨rest, hrest⟩ := replAll_head_match charCI p.data
        redactionMarker.data text.data (classifyPat_litRe_ne_nil hcls) hm
      refine ⟨rest, ?_⟩
      simp only [redact_text, List.isEmpty_cons, if_neg Bool.false_ne_true,
        List.foldl_cons, List.foldl_nil, applyPattern, hcls]
      rw [hrest]
  · intro hcls
    constructor
    · intro hno
      simp only [redact_text, List.isEmpty_cons, if_neg Bool.false_ne_true,
        List.foldl_cons, List.foldl_nil, applyPattern, hcls]
      rw [replAll_no_occurrence charCS p.data redactionMarker.data text.data hno]
    · intro hm
      obtain ⟨rest, hrest⟩ := replAll_head_match charCS p.data
        redactionMarker.data text.data (classifyPat_badRe_ne_nil hcls) hm
      refine ⟨rest, ?_⟩
      simp only [redact_text, List.isEmpty_cons, if_neg Bool.false_ne_true,
        List.foldl_cons, List.foldl_nil, applyPattern, hcls]
      rw [hrest]

/-- Witness for C8 (amended): the valid pattern `"red"` rewrites the
differently-cased head occurrence in `"RED zone"` to the marker, and the
invalid pattern `"a("` leaves `"A(b"` (no case-exact occurrence)
unchanged. -/
theorem redact_pattern_case_behaviour_witness :
    (classifyPat "red" = .litRe ∧
      prefMatch charCI ("red".data) ("RED zone".data) = true ∧
      (∃ rest, (redact_text "RED zone" ["red"]).data =
        redactionMarker.data ++ rest)) ∧
    (classifyPat "a(" = .badRe ∧
      occursIn charCS ("a(".data) ("A(b".data) = false ∧
      redact_text "A(b" ["a("] = "A(b") :=
  ⟨⟨by decide, by decide,
    ((redact_pattern_case_behaviour "red" "RED zone").1 (by decide)).2 (by decide)⟩,
   ⟨by decide, by decide,
    ((redact_pattern_case_behaviour "a(" "A(b").2 (by decide)).1 (by decide)⟩⟩

/- ## `main.py::route_forward` proxy target URL (C9) -/

/-- Python `upstream.rstrip("/")`: drop every trailing slash. -/
def pyRstripSlash (s : String) : String :=
  String.mk ((s.data.reverse.dropWhile (fun c => c == '/')).reverse)

/-- Python `path.lstrip("/")`: drop every leading slash. -/
def pyLstripSlash (s : String) : String :=
  String.mk (s.data.dropWhile (fun c => c == '/'))

/-- Whether a character list starts with a slash. -/
def headIsSlash : List Char → Bool
  | [] => false
  | c :: _ => c == '/'

/-- Whether the string starts with a slash. -/
def startsWithSlash (s : String) : Bool := headIsSlash s.data

/-- Whether the string ends with a slash. -/
def endsWithSlash (s : String) : Bool := headIsSlash s.data.reverse

/-- Model of the proxy-branch URL construction in
`main.py::route_forward`: `upstream.rstrip("/") + "/" + path.lstrip("/")`,
then append `"?" + qs` exactly when the original query string is
non-empty (`if qs:`). -/
def build_target_url (upstream path qs : String) : String :=
  let upstream_url := pyRstripSlash upstream ++ "/" ++ pyLstripSlash path
  if qs ≠ "" then upstream_url ++ "?" ++ qs else upstream_url

lemma dropWhile_head_not (f : Char → Bool) :
    ∀ (l : List Char) (c : Char) (t : List Char),
      l.dropWhile f = c :: t → f c = false := by
  intro l
  induction l with
  | nil =>
      intro c t h
      simp [List.dropWhile] at h
  | cons a as ih =>
      intro c t h
      rw [List.dropWhile_cons] at h
      by_cases hfa : f a = true
      · rw [if_pos hfa] at h
        exact ih c t h
      · rw [if_neg hfa] at h
        cases h
        simpa using hfa

/-- C9: the proxy target URL is the upstream with trailing slashes
stripped, then a single `/`, then the subpath with leading slashes
stripped, with `?<query>` appended exactly when the query string is
non-empty; in particular upstream `http://x/a`, subpath `b/c`, query
`q=1` yield `http://x/a/b/c?q=1`.  The stripped upstream never ends in
a slash and the stripped subpath never starts with one. -/
theorem proxy_target_url (u p q : String) :
    build_target_url "http://x/a" "b/c" "q=1" = "http://x/a/b/c?q=1" ∧
    build_target_url u p "" = pyRstripSlash u ++ "/" ++ pyLstripSlash p ∧
    (q ≠ "" → build_target_url u p q =
      pyRstripSlash u ++ "/" ++ pyLstripSlash p ++ "?" ++ q) ∧
    startsWithSlash (pyLstripSlash p) = false ∧
    endsWithSlash (pyRstripSlash u) = false := by
  refine ⟨by decide, by simp [build_target_url], ?_, ?_, ?_⟩
  · intro hq
    unfold build_target_url
    rw [if_pos hq]
  · show headIsSlash (p.data.dropWhile (fun c => c == '/')) = false
    cases hd : p.data.dropWhile (fun c => c == '/') with
    | nil => rfl
    | cons c t =>
        simpa [headIsSlash] using
          dropWhile_head_not (fun c => c == '/') p.data c t hd
  · show headIsSlash
      ((u.data.reverse.dropWhile (fun c => c == '/')).reverse).reverse = false
    rw [List.reverse_reverse]
    cases hd : u.data.reverse.dropWhile (fun c => c == '/') with
    | nil => rfl
    | cons c t =>
        simpa [headIsSlash] using
          dropWhile_head_not (fun c => c == '/') u.data.reverse c t hd

/-- Witness for C9 at upstream `"http://x//"`, subpath `"//b"`, query
`"z=2"`: the slashes are collapsed and the query appended. -/
theorem proxy_target_url_witness :
    ("z=2" : String) ≠ "" ∧
      build_target_url "http://x//" "//b" "z=2" =
        pyRstripSlash "http://x//" ++ "/" ++ pyLstripSlash "//b" ++ "?" ++ "z=2" :=
  ⟨by decide,
   (proxy_target_url "http://x//" "//b" "z=2").2.2.1 (by decide)⟩

/- ## `main.py` AI-path admission ordering (C7) -/

/-- Shared-store state visible to an AI-path request: the tenant's
current rate-window counter key and monthly quota counter key. -/
structure GatewayState where
  rate : RateState
  quota : Option Int
  deriving Repr, DecidableEq

/-- Outcome of an AI-path request. -/
inductive AiOutcome where
  | rateLimited (retry : Int)
  | badRequest
  | quotaExceeded
  | success (response : String)
  deriving Repr, DecidableEq

/-- Result of an AI-path request: HTTP-level outcome, the shared-store
state afterwards, and whether the provider was invoked. -/
structure AiResult where
  outcome : AiOutcome
  state : GatewayState
  providerCalled : Bool
  deriving Repr, DecidableEq

/-- Model of the AI branch of `main.py::route_forward` (after the
auth/404/405 checks): apply the rate limiter; on denial raise 429; then
require a prompt (400); then consume the estimated tokens from the
quota (402 on failure); then call the provider.  `promptPresent` is
`bool(body.get("prompt"))`, `tokens` the tokenizer's estimate, and
`providerResponse` the external provider's reply. -/
def route_forward_ai (requests per_seconds cap : Int) (promptPresent : Bool)
    (tokens : Int) (providerResponse : String) (st : GatewayState) : AiResult :=
  let rateRes := rate_allow requests per_seconds st.rate
  if !rateRes.1.1 then
    ⟨.rateLimited rateRes.1.2, ⟨rateRes.2, st.quota⟩, false⟩
  else if !promptPresent then
    ⟨.badRequest, ⟨rateRes.2, st.quota⟩, false⟩
  else
    let quotaRes := quota_consume tokens cap st.quota
    if !quotaRes.1 then
      ⟨.quotaExceeded, ⟨rateRes.2, quotaRes.2⟩, false⟩
    else
      ⟨.success providerResponse, ⟨rateRes.2, quotaRes.2⟩, true⟩

/-- Model of `main.py::generate` (`POST /v1/generate`) after
authentication: rate limit (429), then quota (402), then the provider
call.  The prompt is validated by the request model before the handler
runs, so there is no 400 step. -/
def generate_ai (requests per_seconds cap tokens : Int)
    (providerResponse : String) (st : GatewayState) : AiResult :=
  let rateRes := rate_allow requests per_seconds st.rate
  if !rateRes.1.1 then
    ⟨.rateLimited rateRes.1.2, ⟨rateRes.2, st.quota⟩, false⟩
  else
    let quotaRes := quota_consume tokens cap st.quota
    if !quotaRes.1 then
      ⟨.quotaExceeded, ⟨rateRes.2, quotaRes.2⟩, false⟩
    else
      ⟨.success providerResponse, ⟨rateRes.2, quotaRes.2⟩, true⟩

/-- C7: admission-control ordering on the AI path, for both
`route_forward` and `generate`: a rate-limited request leaves the quota
counter exactly as it was and never calls the provider; a quota-rejected
request never calls the provider; and the provider is called only when
the request succeeds (rate limit and quota both passed). -/
theorem ai_admission_ordering (requests per_seconds cap tokens : Int)
    (promptPresent : Bool) (resp : String) (st : GatewayState) :
    (∀ retry, (route_forward_ai requests per_seconds cap promptPresent tokens
        resp st).outcome = .rateLimited retry →
      (route_forward_ai requests per_seconds cap promptPresent tokens
        resp st).state.quota = st.quota ∧
      (route_forward_ai requests per_seconds cap promptPresent tokens
        resp st).providerCalled = false) ∧
    ((route_forward_ai requests per_seconds cap promptPresent tokens
        resp st).outcome = .quotaExceeded →
      (route_forward_ai requests per_seconds cap promptPresent tokens
        resp st).providerCalled = false) ∧
    ((route_forward_ai requests per_seconds cap promptPresent tokens
        resp st).providerCalled = true →
      ∃ r, (route_forward_ai requests per_seconds cap promptPresent tokens
        resp st).outcome = .success r) ∧
    (∀ retry, (generate_ai requests per_seconds cap tokens resp st).outcome =
        .rateLimited retry →
      (generate_ai requests per_seconds cap tokens resp st).state.quota =
        st.quota ∧
      (generate_ai requests per_seconds cap tokens resp st).providerCalled =
        false) ∧
    ((generate_ai requests per_seconds cap tokens resp st).outcome =
        .quotaExceeded →
      (generate_ai requests per_seconds cap tokens resp st).providerCalled =
        false) ∧
    ((generate_ai requests per_seconds cap tokens resp st).providerCalled =
        true →
      ∃ r, (generate_ai requests per_seconds cap tokens resp st).outcome =
        .success r) := by
  unfold route_forward_ai generate_ai
  cases hra : (rate_allow requests per_seconds st.rate).1.1 with
  | false => simp [hra]
  | true =>
      cases hq : (quota_consume tokens cap st.quota).1 with
      | false => cases promptPresent <;> simp [hra, hq]
      | true => cases promptPresent <;> simp [hra, hq]

/-- Witness for C7: with `requests = 0` the first request is
rate-limited, leaves the (empty) quota key untouched and calls no
provider; with `requests = 5, cap = 0, tokens = 3` the request is
quota-rejected and calls no provider. -/
theorem ai_admission_ordering_witness :
    ((route_forward_ai 0 60 100 true 5 "r" ⟨RateState.initial, none⟩).outcome =
        .rateLimited 60 ∧
      (route_forward_ai 0 60 100 true 5 "r"
        ⟨RateState.initial, none⟩).state.quota = none ∧
      (route_forward_ai 0 60 100 true 5 "r"
        ⟨RateState.initial, none⟩).providerCalled = false) ∧
    ((generate_ai 5 60 0 3 "r" ⟨RateState.initial, none⟩).outcome =
        .quotaExceeded ∧
      (generate_ai 5 60 0 3 "r" ⟨RateState.initial, none⟩).providerCalled =
        false) :=
  ⟨⟨by decide,
    ((ai_admission_ordering 0 60 100 5 true "r" ⟨RateState.initial, none⟩).1
      60 (by decide)).1,
    ((ai_admission_ordering 0 60 100 5 true "r" ⟨RateState.initial, none⟩).1
      60 (by decide)).2⟩,
   ⟨by decide,
    (ai_admission_ordering 5 60 0 3 true "r"
      ⟨RateState.initial, none⟩).2.2.2.2.1 (by decide)⟩⟩

end OrbitGateway
